/-
Verification of the ride-model claims for the Planalityk repository.

The algorithmic core present in the frontend sources is `makeRoutePreview`
in `src/frontend/src/pages/landing_old.jsx`: it builds a synthetic route
profile (seeded PRNG noise), derives per-point grades (raw quotient with a
divide-by-zero guard, then an in-place 5-point smoothing pass), and solves a
per-point speed with a damped Newton iteration on the power-balance equation
calibrated from `flat_mph`.  Numbers are modelled as real numbers (JS uses
IEEE doubles; NaN/∞ are not representable in this model, which is noted where
a claim mentions them).  The backend aggregator described by the spec (§4.3)
is not part of the sources; where a claim depends on it, the definition is
modelled from the spec and marked as such.
-/
import Mathlib

namespace Planalityk

/-- Rider configuration, the seven fields of spec §3.  In
`landing_old.jsx` the corresponding values are local constants of
`makeRoutePreview`; the solver below is the code's formula with the
constants replaced by the configuration fields (`mass = rider_kg + bike_kg`,
the code's single `mass = 62`).  The code has no wind term and no heuristic
branch, so `wind_mph` and `physics` are carried but unused by the solver. -/
structure RiderConfig where
  flat_mph : ℝ
  physics : Bool
  rider_kg : ℝ
  bike_kg : ℝ
  cda : ℝ
  crr : ℝ
  wind_mph : ℝ

/-- The constants hard-coded in `makeRoutePreview` (lines 52-57):
`flat_mph = 18.5`, `CdA = 0.3`, `Crr = 0.004`, `mass = 62` (split here as
rider 52 kg + bike 10 kg), `rho = 1.225`, `g = 9.80665`. -/
def demoConfig : RiderConfig :=
  { flat_mph := 18.5, physics := true, rider_kg := 52, bike_kg := 10,
    cda := 0.3, crr := 0.004, wind_mph := 0 }

/-- The demo configuration with a slow (but positive) flat pace of 1 mph:
`v_flat = 0.44704 m/s` lies below the solver's 1 m/s clamp. -/
def slowConfig : RiderConfig :=
  { flat_mph := 1, physics := true, rider_kg := 52, bike_kg := 10,
    cda := 0.3, crr := 0.004, wind_mph := 0 }

/-- Total mass, `rider_kg + bike_kg`. -/
def massOf (cfg : RiderConfig) : ℝ := cfg.rider_kg + cfg.bike_kg

/-- `grav = mass * g * Math.sin(Math.atan(gp / 100))` (line 59-60). -/
noncomputable def grav (cfg : RiderConfig) (gp : ℝ) : ℝ :=
  massOf cfg * 9.80665 * Real.sin (Real.arctan (gp / 100))

/-- `roll = mass * g * Crr * Math.cos(Math.atan(gp / 100))` (line 61). -/
noncomputable def roll (cfg : RiderConfig) (gp : ℝ) : ℝ :=
  massOf cfg * 9.80665 * cfg.crr * Real.cos (Real.arctan (gp / 100))

/-- `aero = 0.5 * rho * CdA * v * v` (line 66). -/
def aero (cfg : RiderConfig) (v : ℝ) : ℝ := 0.5 * 1.225 * cfg.cda * v * v

/-- `v_flat = flat_mph * 0.44704` (line 62). -/
def vflatOf (cfg : RiderConfig) : ℝ := cfg.flat_mph * 0.44704

/-- `P = v_flat * (mass * g * Crr + 0.5 * rho * CdA * v_flat * v_flat)`
(line 63): the power budget calibrated from the flat speed. -/
def powerOf (cfg : RiderConfig) : ℝ :=
  vflatOf cfg * (massOf cfg * 9.80665 * cfg.crr +
    0.5 * 1.225 * cfg.cda * vflatOf cfg * vflatOf cfg)

/-- The heuristic Newton seed,
`v = Math.max(2, v_flat + (gp < 0 ? Math.abs(gp) * 0.3 : -gp * 0.25))`
(line 64). -/
noncomputable def seedV (cfg : RiderConfig) (gp : ℝ) : ℝ :=
  max 2 (vflatOf cfg + if gp < 0 then |gp| * 0.3 else -gp * 0.25)

/-- `f(v) = v * (grav + roll + aero) - P` (line 67), the power-balance
residual the Newton loop drives to zero. -/
noncomputable def fRes (cfg : RiderConfig) (gp : ℝ) (v : ℝ) : ℝ :=
  v * (grav cfg gp + roll cfg gp + aero cfg v) - powerOf cfg

/-- `df = grav + roll + 1.5 * aero` (line 68), the denominator the code
uses in place of a derivative. -/
noncomputable def dfCode (cfg : RiderConfig) (gp : ℝ) (v : ℝ) : ℝ :=
  grav cfg gp + roll cfg gp + 1.5 * aero cfg v

/-- One loop body iteration,
`v = Math.max(1, v - 0.6 * (f / Math.max(1e-6, df)))` (line 69). -/
noncomputable def newtonStep (cfg : RiderConfig) (gp : ℝ) (v : ℝ) : ℝ :=
  max 1 (v - 0.6 * (fRes cfg gp v / max 1e-6 (dfCode cfg gp v)))

/-- `n` iterations of the loop body (the code runs `t = 0 .. 5`). -/
noncomputable def newtonIter (cfg : RiderConfig) (gp : ℝ) : ℕ → ℝ → ℝ
  | 0, v => v
  | n + 1, v => newtonIter cfg gp n (newtonStep cfg gp v)

/-- The solved speed in m/s after the fixed 6 Newton iterations
(lines 64-70). -/
noncomputable def solveV (cfg : RiderConfig) (gp : ℝ) : ℝ :=
  newtonIter cfg gp 6 (seedV cfg gp)

/-- The per-point solved speed converted to mph, `v * 2.23694` (line 74,
before the demo decorations `dip`/`whoosh`/`jitter` are added). -/
noncomputable def solveSpeed (cfg : RiderConfig) (gp : ℝ) : ℝ :=
  solveV cfg gp * 2.23694

/-! ### Grade preprocessing (lines 41-51 of `landing_old.jsx`)

The code allocates `grade = new Array(pts).fill(0)`, fills indices
`1 .. pts-1` with the guarded raw quotient, and then runs an in-place
smoothing pass over indices `2 .. pts-3`. -/

/-- Raw grade at index `i`:
`grade[i] = dx > 0 ? (de / 5280 / dx) * 100 : 0` for `i ≥ 1`
(lines 42-46), and the untouched initial fill `0` at index `0`. -/
noncomputable def rawGradeAt (miles elev : List ℝ) (i : ℕ) : ℝ :=
  if i = 0 then 0
  else
    if miles.getD i 0 - miles.getD (i - 1) 0 > 0 then
      (elev.getD i 0 - elev.getD (i - 1) 0) / 5280 /
        (miles.getD i 0 - miles.getD (i - 1) 0) * 100
    else 0

/-- The raw grade array (same length as the profile, index 0 stays 0). -/
noncomputable def rawGrades (miles elev : List ℝ) : List ℝ :=
  (List.range miles.length).map (rawGradeAt miles elev)

/-- The 5-point window average read off the current state of the array,
`(grade[i-2] + grade[i-1] + grade[i] + grade[i+1] + grade[i+2]) / 5`
(lines 48-50). -/
noncomputable def avg5 (g : List ℝ) (i : ℕ) : ℝ :=
  (g.getD (i - 2) 0 + g.getD (i - 1) 0 + g.getD i 0 +
    g.getD (i + 1) 0 + g.getD (i + 2) 0) / 5

/-- The in-place smoothing loop, updating position `i` and moving right,
`fuel` iterations in total (`for (i = 2; i < pts - 2; i++)`). -/
noncomputable def smoothFrom : ℕ → List ℝ → ℕ → List ℝ
  | 0, g, _ => g
  | fuel + 1, g, i => smoothFrom fuel (g.set i (avg5 g i)) (i + 1)

/-- The smoothing pass of lines 47-51: start at index 2 and run
`pts - 2 - 2` iterations. -/
noncomputable def smoothGrades (g : List ℝ) : List ℝ :=
  smoothFrom (g.length - 4) g 2

/-- The full grade preprocessor of lines 41-51: raw grades, then the
in-place smoothing pass. -/
noncomputable def computeGrades (miles elev : List ℝ) : List ℝ :=
  smoothGrades (rawGrades miles elev)

/-- Modelled from the spec: the smoothing §4.1 describes — a plain
("5-point centered moving average") of the raw grades, with "boundary
samples use a truncated window rather than padding".  This is the
refinement target the in-place pass of the code is compared against. -/
noncomputable def specSmooth (g : List ℝ) : List ℝ :=
  (List.range g.length).map fun (i : ℕ) =>
    (((List.range (min (g.length - 1) (i + 2) + 1 - (i - 2))).map fun (k : ℕ) =>
        g.getD (i - 2 + k) 0).sum) /
      ((min (g.length - 1) (i + 2) + 1 - (i - 2) : ℕ) : ℝ)

/-! ### The seeded PRNG and the demo pipeline (lines 7-77)

`mulberry32` keeps an exact numeric state (`seed += 0x6D2B79F5`); every
use of the state inside the hash coerces it to its 32-bit pattern, so the
state is modelled as an exact natural number and each bitwise operation
reduces modulo `2^32` just as the JS coercions do. -/

/-- One call of the `mulberry32` closure: returns the value in `[0,1)` and
the updated state. -/
noncomputable def rngStep (s : ℕ) : ℝ × ℕ :=
  let s1 := s + 0x6D2B79F5
  let t0 := s1 % 4294967296
  let t1 := (Nat.xor t0 (t0 / 32768) * (t0 ||| 1)) % 4294967296
  let t2 := Nat.xor t1 ((t1 + Nat.xor t1 (t1 / 128) * (t1 ||| 61) % 4294967296) % 4294967296)
  let out := Nat.xor t2 (t2 / 16384)
  (((out : ℝ) / 4294967296), s1)

/-- `n` sequential draws from the generator, threading the state. -/
noncomputable def drawsN : ℕ → ℕ → List ℝ × ℕ
  | 0, s => ([], s)
  | n + 1, s =>
      let p := rngStep s
      let rest := drawsN n p.2
      (p.1 :: rest.1, rest.2)

/-- `noiseSeries` (lines 15-30): smooth a list of draws with a clamped
window of half-width `max 1 w`; `c` is always `2 * max 1 w + 1`. -/
noncomputable def noiseOf (a : List ℝ) (w : ℕ) : List ℝ :=
  (List.range a.length).map fun i =>
    (((List.range (2 * max 1 w + 1)).map fun k =>
        a.getD (min (a.length - 1) (i + k - max 1 w)) 0).sum) / (2 * max 1 w + 1)

/-- The number of profile points, `pts = 1600` (line 33). -/
def pts : ℕ := 1600

/-- `miles[i] = i * totalMiles / (pts - 1)` (lines 34-37). -/
noncomputable def milesSeries (tm : ℝ) : List ℝ :=
  (List.range pts).map fun (i : ℕ) => (i : ℝ) * tm / ((pts : ℝ) - 1)

/-- The state after the first block of `pts` draws (consumed by `base`). -/
noncomputable def state1 (seed : ℕ) : ℕ := (drawsN pts seed).2

/-- `base = noiseSeries(pts, rng, 18)` (line 38). -/
noncomputable def baseSeries (seed : ℕ) : List ℝ :=
  noiseOf ((drawsN pts seed).1.map fun r => r * 2 - 1) 18

/-- The state after the second block of `pts` draws (consumed by `bump`). -/
noncomputable def state2 (seed : ℕ) : ℕ := (drawsN pts (state1 seed)).2

/-- `bump = noiseSeries(pts, rng, 5)` (line 39). -/
noncomputable def bumpSeries (seed : ℕ) : List ℝ :=
  noiseOf ((drawsN pts (state1 seed)).1.map fun r => r * 2 - 1) 5

/-- `elev_ft = base.map((b, i) => 60 * b + 25 * bump[i])` (line 40). -/
noncomputable def elevSeries (seed : ℕ) : List ℝ :=
  List.zipWith (fun b u => 60 * b + 25 * u) (baseSeries seed) (bumpSeries seed)

/-- The grade chart series (lines 41-51). -/
noncomputable def gradeSeries (tm : ℝ) (seed : ℕ) : List ℝ :=
  computeGrades (milesSeries tm) (elevSeries seed)

/-- The speed map of lines 58-75: per point, solve the speed, then apply
the demo decorations (`dip`, `whoosh`, one jitter draw per point) and the
final `Math.max(5, ...)` floor. -/
noncomputable def speedsAux (cfg : RiderConfig) : List ℝ → ℕ → ℕ → List ℝ × ℕ
  | [], _, s => ([], s)
  | gp :: rest, i, s =>
      let p := rngStep s
      let dip : ℝ := if i % 180 = 0 then -6 else if i % 310 = 0 then -10 else 0
      let whoosh : ℝ := if gp < -4 ∧ i % 95 = 0 then 7 else 0
      let jitter : ℝ := (p.1 - 0.5) * 0.6
      let tail := speedsAux cfg rest (i + 1) p.2
      (max 5 (solveV cfg gp * 2.23694 + dip + whoosh + jitter) :: tail.1, tail.2)

/-- The speed chart series. -/
noncomputable def speedSeries (tm : ℝ) (seed : ℕ) : List ℝ :=
  (speedsAux demoConfig (gradeSeries tm seed) 0 (state2 seed)).1

/-- The generator state after the whole run (all `2 * pts + pts` draws). -/
noncomputable def finalState (tm : ℝ) (seed : ℕ) : ℕ :=
  (speedsAux demoConfig (gradeSeries tm seed) 0 (state2 seed)).2

/-- The record returned by `makeRoutePreview` (line 76). -/
structure Preview where
  miles : List ℝ
  speed : List ℝ
  grade : List ℝ

/-- `makeRoutePreview(totalMiles, seed)` (lines 31-77). -/
noncomputable def makeRoutePreview (tm : ℝ) (seed : ℕ) : Preview :=
  ⟨milesSeries tm, speedSeries tm seed, gradeSeries tm seed⟩

/-- The pipeline as run inside a host carrying a global generator state
`w`: the code constructs its generator from `seed` alone
(`mulberry32(seed)`, line 32), so the ambient state is ignored and the
run leaves behind the state derived from `seed`. -/
noncomputable def runPreview (w : ℕ) (tm : ℝ) (seed : ℕ) : Preview × ℕ :=
  (makeRoutePreview tm seed, finalState tm seed)

/-! ### The aggregator, modelled from the spec

The backend that computes `AnalysisResult` (spec §3, §4.3) is not among the
sources of the repository (only its frontend callers, e.g. `Result.jsx`,
are).  The definitions below are modelled from the spec's words. -/

/-- Modelled from the spec: the output record of §3 — chart arrays, scalar
route totals, and the predicted time/average speed. -/
structure AnalysisResult where
  dist_mi : List ℝ
  speed_mph : List ℝ
  grade_pct : List ℝ
  elev_ft : List ℝ
  distance_mi : ℝ
  elev_gain_ft : ℝ
  pred_time_h : ℝ
  pred_avg_mph : ℝ

/-- Modelled from the spec: consecutive segment distances of the profile. -/
noncomputable def segmentDists (dist : List ℝ) : List ℝ :=
  List.zipWith (fun a b => b - a) dist dist.tail

/-- Modelled from the spec (§4.3): "Per-segment time = segment distance /
segment speed; total predicted time = sum of segment times". -/
noncomputable def predTimeH (dist speeds : List ℝ) : ℝ :=
  (List.zipWith (fun d s => d / s) (segmentDists dist) (speeds.drop 1)).sum

/-- Modelled from the spec (§4.3): the aggregator — chart series echoed,
total distance as the last sample, elevation gain as the sum of positive
deltas, and "predicted average mph = total distance / total time". -/
noncomputable def aggregate (dist elev grades speeds : List ℝ) : AnalysisResult :=
  { dist_mi := dist
    speed_mph := speeds
    grade_pct := grades
    elev_ft := elev
    distance_mi := dist.getD (dist.length - 1) 0
    elev_gain_ft := (List.zipWith (fun a b => max 0 (b - a)) elev elev.tail).sum
    pred_time_h := predTimeH dist speeds
    pred_avg_mph := dist.getD (dist.length - 1) 0 / predTimeH dist speeds }

/-! ### Helper lemmas -/

lemma newtonStep_ge_one (cfg : RiderConfig) (gp v : ℝ) :
    1 ≤ newtonStep cfg gp v := le_max_left _ _

lemma newtonIter_ge_one (cfg : RiderConfig) (gp : ℝ) :
    ∀ n v, 1 ≤ v → 1 ≤ newtonIter cfg gp n v := by
  intro n
  induction n with
  | zero => intro v hv; exact hv
  | succ n ih =>
      intro v _
      exact ih (newtonStep cfg gp v) (newtonStep_ge_one cfg gp v)

lemma seedV_ge_one (cfg : RiderConfig) (gp : ℝ) : 1 ≤ seedV cfg gp :=
  le_trans (by norm_num) (le_max_left _ _)

/-- The in-loop floor: every iterate, and hence the output of the solver,
is at least 1 m/s. -/
lemma solveV_ge_one (cfg : RiderConfig) (gp : ℝ) : 1 ≤ solveV cfg gp :=
  newtonIter_ge_one cfg gp 6 (seedV cfg gp) (seedV_ge_one cfg gp)

lemma smoothFrom_length : ∀ (fuel : ℕ) (g : List ℝ) (i : ℕ),
    (smoothFrom fuel g i).length = g.length := by
  intro fuel
  induction fuel with
  | zero => intro g i; rfl
  | succ fuel ih =>
      intro g i
      rw [smoothFrom, ih, List.length_set]

lemma smoothGrades_length (g : List ℝ) :
    (smoothGrades g).length = g.length := smoothFrom_length _ g 2

lemma rawGrades_length (miles elev : List ℝ) :
    (rawGrades miles elev).length = miles.length := by
  simp [rawGrades]

lemma computeGrades_length (miles elev : List ℝ) :
    (computeGrades miles elev).length = miles.length := by
  rw [computeGrades, smoothGrades_length, rawGrades_length]

lemma getD_set_ne {l : List ℝ} {i k : ℕ} (h : i ≠ k) (a : ℝ) :
    (l.set i a).getD k 0 = l.getD k 0 := by
  simp [List.getD_eq_getElem?_getD, List.getElem?_set_ne h]

lemma getD_set_self {l : List ℝ} {i : ℕ} (h : i < l.length) (a : ℝ) :
    (l.set i a).getD i 0 = a := by
  simp [List.getD_eq_getElem?_getD, List.getElem?_set_self h]

lemma smoothFrom_getD_lt : ∀ (fuel : ℕ) (g : List ℝ) (i k : ℕ), k < i →
    (smoothFrom fuel g i).getD k 0 = g.getD k 0 := by
  intro fuel
  induction fuel with
  | zero => intro g i k _; rfl
  | succ fuel ih =>
      intro g i k hk
      rw [smoothFrom, ih _ _ _ (Nat.lt_succ_of_lt hk),
        getD_set_ne (Nat.ne_of_gt hk)]

lemma smoothFrom_getD_ge : ∀ (fuel : ℕ) (g : List ℝ) (i k : ℕ),
    i + fuel ≤ k → (smoothFrom fuel g i).getD k 0 = g.getD k 0 := by
  intro fuel
  induction fuel with
  | zero => intro g i k _; rfl
  | succ fuel ih =>
      intro g i k hk
      rw [smoothFrom, ih _ _ _ (by omega), getD_set_ne (by omega)]

lemma smoothFrom_split : ∀ (a : ℕ) (g : List ℝ) (i b : ℕ),
    smoothFrom (a + b) g i = smoothFrom b (smoothFrom a g i) (i + a) := by
  intro a
  induction a with
  | zero => intro g i b; simp [smoothFrom]
  | succ a ih =>
      intro g i b
      have h1 : a + 1 + b = (a + b) + 1 := by omega
      rw [h1, smoothFrom, smoothFrom, ih]
      have h2 : i + 1 + a = i + (a + 1) := by omega
      rw [h2]

/-- The value written at an interior index `j`: the window average read at
the moment the loop visited `j`, i.e. over the state after the first
`j - i` updates. -/
lemma smoothFrom_getD_mid (g : List ℝ) (i fuel j : ℕ)
    (h1 : i ≤ j) (h2 : j < i + fuel) (h3 : j < g.length) :
    (smoothFrom fuel g i).getD j 0 = avg5 (smoothFrom (j - i) g i) j := by
  obtain ⟨k, hk⟩ : ∃ k, fuel = (j - i) + (k + 1) := ⟨fuel - (j - i) - 1, by omega⟩
  rw [hk, smoothFrom_split]
  have hij : i + (j - i) = j := by omega
  rw [hij, smoothFrom]
  rw [smoothFrom_getD_lt _ _ _ _ (Nat.lt_succ_self j)]
  exact getD_set_self (by rw [smoothFrom_length]; exact h3) _

/-- Boundary samples (the first two and the last two positions) are left
untouched by the smoothing loop. -/
lemma smoothGrades_getD_boundary (g : List ℝ) (j : ℕ)
    (h : j < 2 ∨ 2 + (g.length - 4) ≤ j) :
    (smoothGrades g).getD j 0 = g.getD j 0 := by
  rcases h with h | h
  · exact smoothFrom_getD_lt _ g 2 j h
  · exact smoothFrom_getD_ge _ g 2 j h

/-- Interior samples are overwritten in ascending order: the value at `j`
averages the already-smoothed entries at `j-2`, `j-1` with the raw entries
at `j`, `j+1`, `j+2`. -/
lemma smoothGrades_getD_mid (g : List ℝ) (j : ℕ)
    (hj1 : 2 ≤ j) (hj2 : j < 2 + (g.length - 4)) :
    (smoothGrades g).getD j 0 =
      ((smoothGrades g).getD (j - 2) 0 + (smoothGrades g).getD (j - 1) 0 +
        g.getD j 0 + g.getD (j + 1) 0 + g.getD (j + 2) 0) / 5 := by
  have hlen : 5 ≤ g.length := by omega
  have hjlen : j < g.length := by omega
  simp only [smoothGrades]
  rw [smoothFrom_getD_mid g 2 (g.length - 4) j hj1 (by omega) hjlen]
  have hgj : smoothFrom (g.length - 4) g 2 =
      smoothFrom (g.length - 4 - (j - 2)) (smoothFrom (j - 2) g 2) j := by
    have hs := smoothFrom_split (j - 2) g 2 (g.length - 4 - (j - 2))
    have ha : (j - 2) + (g.length - 4 - (j - 2)) = g.length - 4 := by omega
    have hb : 2 + (j - 2) = j := by omega
    rw [ha, hb] at hs
    exact hs
  have e1 : (smoothFrom (j - 2) g 2).getD (j - 2) 0 =
      (smoothFrom (g.length - 4) g 2).getD (j - 2) 0 := by
    rw [hgj]
    exact (smoothFrom_getD_lt (g.length - 4 - (j - 2))
      (smoothFrom (j - 2) g 2) j (j - 2) (by omega)).symm
  have e2 : (smoothFrom (j - 2) g 2).getD (j - 1) 0 =
      (smoothFrom (g.length - 4) g 2).getD (j - 1) 0 := by
    rw [hgj]
    exact (smoothFrom_getD_lt (g.length - 4 - (j - 2))
      (smoothFrom (j - 2) g 2) j (j - 1) (by omega)).symm
  have e3 : (smoothFrom (j - 2) g 2).getD j 0 = g.getD j 0 :=
    smoothFrom_getD_ge _ g 2 j (by omega)
  have e4 : (smoothFrom (j - 2) g 2).getD (j + 1) 0 = g.getD (j + 1) 0 :=
    smoothFrom_getD_ge _ g 2 (j + 1) (by omega)
  have e5 : (smoothFrom (j - 2) g 2).getD (j + 2) 0 = g.getD (j + 2) 0 :=
    smoothFrom_getD_ge _ g 2 (j + 2) (by omega)
  rw [avg5, e1, e2, e3, e4, e5]

lemma rawGrades_getD (miles elev : List ℝ) (i : ℕ) (h : i < miles.length) :
    (rawGrades miles elev).getD i 0 = rawGradeAt miles elev i := by
  rw [rawGrades, List.getD_eq_getElem?_getD, List.getElem?_map,
    List.getElem?_range h]
  rfl

lemma drawsN_length : ∀ (n s : ℕ), (drawsN n s).1.length = n := by
  intro n
  induction n with
  | zero => intro s; rfl
  | succ n ih => intro s; simp [drawsN, ih]

lemma noiseOf_length (a : List ℝ) (w : ℕ) : (noiseOf a w).length = a.length := by
  simp [noiseOf]

lemma speedsAux_length (cfg : RiderConfig) :
    ∀ (l : List ℝ) (i s : ℕ), (speedsAux cfg l i s).1.length = l.length := by
  intro l
  induction l with
  | nil => intro i s; rfl
  | cons gp rest ih => intro i s; simp [speedsAux, ih]

/-- On steep climbs (grade 22.5 % to 30 %) the gravity-plus-rolling force
of the demo configuration is pinned between 133.3 N and 184.84 N:
`sin (arctan x) = x / √(1+x²)`, `cos (arctan x) = 1 / √(1+x²)` with
`1 ≤ √(1+x²) ≤ 1.0441` for `x = gp/100 ∈ [0.225, 0.3]`. -/
lemma resist_bounds (gp : ℝ) (h1 : 22.5 ≤ gp) (h2 : gp ≤ 30) :
    133.3 ≤ grav demoConfig gp + roll demoConfig gp ∧
      grav demoConfig gp + roll demoConfig gp ≤ 184.84 := by
  have hm : massOf demoConfig = 62 := by norm_num [massOf, demoConfig]
  have hcrr : demoConfig.crr = 0.004 := rfl
  rw [grav, roll, hm, hcrr, Real.sin_arctan, Real.cos_arctan]
  have hx1 : 0.225 ≤ gp / 100 := by linarith
  have hx2 : gp / 100 ≤ 0.3 := by linarith
  have hx0 : (0 : ℝ) ≤ gp / 100 := by linarith
  have hsqnn : (0 : ℝ) ≤ 1 + (gp / 100) ^ 2 := by positivity
  have hs1 : 1 ≤ Real.sqrt (1 + (gp / 100) ^ 2) := by
    nlinarith [Real.sq_sqrt hsqnn, Real.sqrt_nonneg (1 + (gp / 100) ^ 2)]
  have hs2 : Real.sqrt (1 + (gp / 100) ^ 2) ≤ 1.0441 := by
    have hb : Real.sqrt (1 + (gp / 100) ^ 2) ≤ Real.sqrt (1.0441 ^ 2) :=
      Real.sqrt_le_sqrt (by nlinarith)
    rwa [Real.sqrt_sq (by norm_num)] at hb
  have hs0 : (0 : ℝ) < Real.sqrt (1 + (gp / 100) ^ 2) :=
    lt_of_lt_of_le one_pos hs1
  have q1 : (0.225 : ℝ) / 1.0441 ≤ gp / 100 / Real.sqrt (1 + (gp / 100) ^ 2) :=
    div_le_div hx0 hx1 hs0 hs2
  have q2 : (1 : ℝ) / 1.0441 ≤ 1 / Real.sqrt (1 + (gp / 100) ^ 2) :=
    div_le_div (by norm_num) (le_refl 1) hs0 hs2
  have q3 : gp / 100 / Real.sqrt (1 + (gp / 100) ^ 2) ≤ 0.3 / 1 :=
    div_le_div (by norm_num) hx2 (by norm_num) hs1
  have q4 : (1 : ℝ) / Real.sqrt (1 + (gp / 100) ^ 2) ≤ 1 / 1 :=
    div_le_div (by norm_num) (le_refl 1) (by norm_num) hs1
  constructor
  · nlinarith [q1, q2]
  · nlinarith [q3, q4]

/-- One Newton step on a steep climb contracts towards the floor: for the
demo configuration and grade in [22.5, 30], if `1 ≤ v ≤ c ≤ 2.64524` then
the next iterate is at most `max 1 (c - 0.6 (133.3 c - 123.88) / 186.77)`. -/
lemma newtonStep_steep (gp v c : ℝ) (h1 : 22.5 ≤ gp) (h2 : gp ≤ 30)
    (hv1 : 1 ≤ v) (hvc : v ≤ c) (hc : c ≤ 2.64524) :
    newtonStep demoConfig gp v ≤
      max 1 (c - 0.6 * ((133.3 * c - 123.88) / 186.77)) := by
  obtain ⟨hR1, hR2⟩ := resist_bounds gp h1 h2
  have hcda : demoConfig.cda = 0.3 := rfl
  have hv0 : (0 : ℝ) ≤ v := by linarith
  have hP : powerOf demoConfig ≤ 124.06 := by
    norm_num [powerOf, vflatOf, massOf, demoConfig]
  have hvv : v * v ≤ 6.9973 := by nlinarith
  have hD1 : 133.3 ≤ dfCode demoConfig gp v := by
    rw [dfCode, aero, hcda]
    nlinarith
  have hD2 : dfCode demoConfig gp v ≤ 186.77 := by
    rw [dfCode, aero, hcda]
    nlinarith
  have hDmax : max 1e-6 (dfCode demoConfig gp v) = dfCode demoConfig gp v :=
    max_eq_right (by linarith)
  have hcube : 1 ≤ v * v * v := by nlinarith
  have hF1 : 133.3 * v - 123.88 ≤ fRes demoConfig gp v := by
    rw [fRes, aero, hcda]
    nlinarith [mul_nonneg hv0 (sub_nonneg.mpr hR1)]
  have hF0 : (0 : ℝ) ≤ 133.3 * v - 123.88 := by linarith
  have hdiv : (133.3 * v - 123.88) / 186.77 ≤
      fRes demoConfig gp v / dfCode demoConfig gp v :=
    div_le_div (by linarith) hF1 (by linarith) hD2
  have hstep : v - 0.6 * (fRes demoConfig gp v / dfCode demoConfig gp v) ≤
      c - 0.6 * ((133.3 * c - 123.88) / 186.77) := by
    have he1 : (133.3 * v - 123.88) / 186.77 =
        (13330 * v - 12388) / 18677 := by ring
    have he2 : (133.3 * c - 123.88) / 186.77 =
        (13330 * c - 12388) / 18677 := by ring
    rw [he2]
    rw [he1] at hdiv
    linarith [hdiv]
  rw [newtonStep, hDmax]
  exact le_trans (max_le_max (le_refl 1) hstep) (le_refl _)

/-- On a steep climb every grade in [22.5, 30] drives the demo solver to
the floor: after the six clamped iterations the result is exactly 1 m/s. -/
lemma solveV_steep (gp : ℝ) (h1 : 22.5 ≤ gp) (h2 : gp ≤ 30) :
    solveV demoConfig gp = 1 := by
  have hvflat : vflatOf demoConfig = 8.27024 := by
    norm_num [vflatOf, demoConfig]
  have hseed1 : 1 ≤ seedV demoConfig gp := seedV_ge_one _ _
  have hseed2 : seedV demoConfig gp ≤ 2.64524 := by
    rw [seedV, if_neg (by linarith : ¬ gp < 0), hvflat]
    apply max_le (by norm_num)
    linarith
  have b1 : newtonStep demoConfig gp (seedV demoConfig gp) ≤ 1.91045 :=
    le_trans (newtonStep_steep gp _ 2.64524 h1 h2 hseed1 hseed2 (le_refl _))
      (max_le (by norm_num) (by norm_num))
  have b2 : newtonStep demoConfig gp
      (newtonStep demoConfig gp (seedV demoConfig gp)) ≤ 1.49032 :=
    le_trans (newtonStep_steep gp _ 1.91045 h1 h2
      (newtonStep_ge_one _ _ _) b1 (by norm_num))
      (max_le (by norm_num) (by norm_num))
  have b3 : newtonStep demoConfig gp (newtonStep demoConfig gp
      (newtonStep demoConfig gp (seedV demoConfig gp))) ≤ 1.25010 :=
    le_trans (newtonStep_steep gp _ 1.49032 h1 h2
      (newtonStep_ge_one _ _ _) b2 (by norm_num))
      (max_le (by norm_num) (by norm_num))
  have b4 : newtonStep demoConfig gp (newtonStep demoConfig gp
      (newtonStep demoConfig gp
        (newtonStep demoConfig gp (seedV demoConfig gp)))) ≤ 1.11274 :=
    le_trans (newtonStep_steep gp _ 1.25010 h1 h2
      (newtonStep_ge_one _ _ _) b3 (by norm_num))
      (max_le (by norm_num) (by norm_num))
  have b5 : newtonStep demoConfig gp (newtonStep demoConfig gp
      (newtonStep demoConfig gp (newtonStep demoConfig gp
        (newtonStep demoConfig gp (seedV demoConfig gp))))) ≤ 1.03421 :=
    le_trans (newtonStep_steep gp _ 1.11274 h1 h2
      (newtonStep_ge_one _ _ _) b4 (by norm_num))
      (max_le (by norm_num) (by norm_num))
  have b6 : newtonStep demoConfig gp (newtonStep demoConfig gp
      (newtonStep demoConfig gp (newtonStep demoConfig gp
        (newtonStep demoConfig gp
          (newtonStep demoConfig gp (seedV demoConfig gp)))))) ≤ 1 :=
    le_trans (newtonStep_steep gp _ 1.03421 h1 h2
      (newtonStep_ge_one _ _ _) b5 (by norm_num))
      (max_le (le_refl 1) (by norm_num))
  rw [solveV]
  simp only [newtonIter]
  exact le_antisymm b6 (newtonStep_ge_one _ _ _)

lemma grav_zero (cfg : RiderConfig) : grav cfg 0 = 0 := by
  simp [grav]

lemma roll_zero (cfg : RiderConfig) :
    roll cfg 0 = massOf cfg * 9.80665 * cfg.crr := by
  simp [roll]

/-- At zero grade the calibrated power budget balances exactly at
`v_flat`: the residual vanishes. -/
lemma fRes_flat (cfg : RiderConfig) : fRes cfg 0 (vflatOf cfg) = 0 := by
  rw [fRes, grav_zero, roll_zero, aero, powerOf]
  ring

lemma seedV_zero (cfg : RiderConfig) (h : 2 ≤ vflatOf cfg) :
    seedV cfg 0 = vflatOf cfg := by
  rw [seedV, if_neg (lt_irrefl (0 : ℝ))]
  have he : vflatOf cfg + -(0 : ℝ) * 0.25 = vflatOf cfg := by ring
  rw [he]
  exact max_eq_right h

lemma newtonStep_flat (cfg : RiderConfig) (h : 1 ≤ vflatOf cfg) :
    newtonStep cfg 0 (vflatOf cfg) = vflatOf cfg := by
  rw [newtonStep, fRes_flat, zero_div, mul_zero, sub_zero]
  exact max_eq_right h

lemma newtonIter_flat (cfg : RiderConfig) (h : 1 ≤ vflatOf cfg) :
    ∀ n, newtonIter cfg 0 n (vflatOf cfg) = vflatOf cfg := by
  intro n
  induction n with
  | zero => rfl
  | succ n ih => rw [newtonIter, newtonStep_flat cfg h, ih]

/-! ### Claim theorems -/

/-- Counterexample to claim C1: with `flat_mph = 1 > 0` (and zero wind,
zero grade) the solver cannot return 1 mph: the target root
`v_flat = 0.44704 m/s` lies below the seed clamp (2 m/s) and the per-step
clamp (1 m/s), so the output is at least 2.23694 mph, off by more than
1e-3 mph. -/
theorem c1_counterexample :
    ¬ |solveSpeed slowConfig 0 - 1| ≤ 1e-3 := by
  intro h
  have h1 := solveV_ge_one slowConfig 0
  have h2 : 2.23694 ≤ solveSpeed slowConfig 0 := by
    rw [solveSpeed]
    nlinarith
  have h3 := (abs_le.mp h).2
  linarith

/-- Claim C1 as amended: the flat-grade calibration holds whenever the
flat speed is large enough that the seed/step clamps do not bind
(`flat_mph ≥ 4.5`, i.e. `v_flat ≥ 2 m/s`) and small enough that the
round-trip unit conversion error `flat_mph × (0.44704 × 2.23694 − 1)`
stays below the tolerance (`flat_mph ≤ 600`): then the seed is exactly
`v_flat`, the residual is exactly zero there, all six iterations are
fixed, and the output differs from `flat_mph` only by the conversion
round-trip (about 1.66e-6 relative). -/
theorem c1_flat_calibration (cfg : RiderConfig)
    (h1 : 4.5 ≤ cfg.flat_mph) (h2 : cfg.flat_mph ≤ 600) :
    |solveSpeed cfg 0 - cfg.flat_mph| ≤ 1e-3 := by
  have hv : 2 ≤ vflatOf cfg := by
    rw [vflatOf]
    nlinarith
  have hsolve : solveV cfg 0 = vflatOf cfg := by
    rw [solveV, seedV_zero cfg hv, newtonIter_flat cfg (by linarith)]
  rw [solveSpeed, hsolve, vflatOf, abs_le]
  constructor <;> nlinarith

/-- Witness for the amended C1 at the demo configuration
(`flat_mph = 18.5`). -/
theorem c1_witness : |solveSpeed demoConfig 0 - 18.5| ≤ 1e-3 :=
  c1_flat_calibration demoConfig (by norm_num [demoConfig])
    (by norm_num [demoConfig])

/-- Claim C2 (confirmed): for every valid rider configuration and every
grade in [-30, 30] %, the per-point solver returns at least its floor: the
seed is clamped to at least 2 m/s and every iteration to at least 1 m/s,
so the mph output is at least 2.23694 mph — in particular at least the
1 mph floor, never negative.  In this real-number model the output is a
total real-valued function, so it is finite and NaN does not arise. -/
theorem c2_monotonic_floor (cfg : RiderConfig) (gp : ℝ)
    (hflat : 0 < cfg.flat_mph) (hrider : 0 < cfg.rider_kg)
    (hbike : 0 < cfg.bike_kg) (hcda : 0 < cfg.cda) (hcrr : 0 < cfg.crr)
    (hg1 : -30 ≤ gp) (hg2 : gp ≤ 30) :
    2.23694 ≤ solveSpeed cfg gp := by
  have h := solveV_ge_one cfg gp
  rw [solveSpeed]
  nlinarith

/-- Witness for C2 at the demo configuration and zero grade. -/
theorem c2_witness : 2.23694 ≤ solveSpeed demoConfig 0 :=
  c2_monotonic_floor demoConfig 0 (by norm_num [demoConfig])
    (by norm_num [demoConfig]) (by norm_num [demoConfig])
    (by norm_num [demoConfig]) (by norm_num [demoConfig])
    (by norm_num) (by norm_num)

/-- Claim C4 (confirmed, modelled from the spec since the backend
aggregator is not among the sources): `pred_time_h` is the sum over
segments of segment distance divided by segment speed, and
`pred_avg_mph` equals `distance_mi / pred_time_h` exactly, as a
definitional identity of the aggregator. -/
theorem c4_average_speed_identity (dist elev grades speeds : List ℝ) :
    (aggregate dist elev grades speeds).pred_time_h =
      (List.zipWith (fun d s => d / s) (segmentDists dist) (speeds.drop 1)).sum ∧
    (aggregate dist elev grades speeds).pred_avg_mph =
      (aggregate dist elev grades speeds).distance_mi /
        (aggregate dist elev grades speeds).pred_time_h :=
  ⟨rfl, rfl⟩

/-- Claim C5 (confirmed): for each consecutive pair of profile samples the
raw grade is `(elevation delta / 5280 / distance delta) * 100` when the
distance delta is positive, and `0` when the distance delta is zero. -/
theorem c5_raw_grade (miles elev : List ℝ) (i : ℕ)
    (h1 : 1 ≤ i) (h2 : i < miles.length) :
    (0 < miles.getD i 0 - miles.getD (i - 1) 0 →
      (rawGrades miles elev).getD i 0 =
        (elev.getD i 0 - elev.getD (i - 1) 0) / 5280 /
          (miles.getD i 0 - miles.getD (i - 1) 0) * 100) ∧
    (miles.getD i 0 - miles.getD (i - 1) 0 = 0 →
      (rawGrades miles elev).getD i 0 = 0) := by
  rw [rawGrades_getD miles elev i h2, rawGradeAt, if_neg (by omega)]
  constructor
  · intro hdx
    rw [if_pos hdx]
  · intro hdx
    rw [if_neg (by rw [hdx]; exact lt_irrefl 0)]

/-- Witness for C5 on the two-sample profile `miles = [0, 1]`,
`elev = [0, 528]`: the raw grade at index 1 is `528 / 5280 / 1 * 100`. -/
theorem c5_witness :
    (rawGrades [0, 1] [0, 528]).getD 1 0 =
      (([0, 528] : List ℝ).getD 1 0 - ([0, 528] : List ℝ).getD 0 0) / 5280 /
        (([0, 1] : List ℝ).getD 1 0 - ([0, 1] : List ℝ).getD 0 0) * 100 :=
  (c5_raw_grade [0, 1] [0, 528] 1 (by norm_num) (by norm_num)).1
    (by norm_num)

/-- Counterexample to claim C8: on the three-sample profile
`miles = [0, 1, 2]`, `elev = [0, 0, 0]` the grade array produced by the
preprocessor has length 3 (the input length, with index 0 fixed at 0),
not input length minus 1. -/
theorem c8_counterexample :
    ¬ (computeGrades [0, 1, 2] [0, 0, 0]).length =
        ([0, 1, 2] : List ℝ).length - 1 := by
  rw [computeGrades_length]
  norm_num

/-- Claim C8 as amended: the grade array produced by the preprocessor has
the same length as the input profile, and its first entry is the initial
fill value 0 (so a two-point profile yields the two samples `[0, g]`). -/
theorem c8_amended (miles elev : List ℝ) :
    (computeGrades miles elev).length = miles.length ∧
    (computeGrades miles elev).getD 0 0 = 0 := by
  refine ⟨computeGrades_length miles elev, ?_⟩
  rw [computeGrades, smoothGrades_getD_boundary _ 0 (Or.inl (by norm_num))]
  by_cases h : 0 < miles.length
  · rw [rawGrades_getD miles elev 0 h, rawGradeAt, if_pos rfl]
  · have hz : miles.length = 0 := by omega
    rw [rawGrades, hz]
    rfl

/-- Claim C9 (confirmed): the pipeline is a pure function of
`(totalMiles, seed)`; the generator is re-initialised from `seed` on every
call, so a second run — even threaded after the first run's final
generator state — produces the identical result. -/
theorem c9_idempotent (w : ℕ) (tm : ℝ) (seed : ℕ) :
    (runPreview (runPreview w tm seed).2 tm seed).1 =
      (runPreview w tm seed).1 := by
  simp only [runPreview]

/-- Claim C10 (confirmed): the chart series `miles`, `speed`, `grade` and
the elevation series all have length `pts = 1600`, and the distance array
is sorted in non-decreasing order (for the nonnegative total mileages the
code passes, 85 and 86). -/
theorem c10_parallel_series (tm : ℝ) (seed : ℕ) (htm : 0 ≤ tm) :
    (makeRoutePreview tm seed).miles.length = pts ∧
    (makeRoutePreview tm seed).speed.length = pts ∧
    (makeRoutePreview tm seed).grade.length = pts ∧
    (elevSeries seed).length = pts ∧
    List.Pairwise (· ≤ ·) (makeRoutePreview tm seed).miles := by
  have hmiles : (milesSeries tm).length = pts := by
    rw [milesSeries, List.length_map, List.length_range]
  have helev : (elevSeries seed).length = pts := by
    rw [elevSeries, List.length_zipWith, baseSeries, bumpSeries,
      noiseOf_length, noiseOf_length, List.length_map, List.length_map,
      drawsN_length, drawsN_length, min_self]
  have hgrade : (gradeSeries tm seed).length = pts := by
    rw [gradeSeries, computeGrades_length, hmiles]
  have hspeed : (speedSeries tm seed).length = pts := by
    rw [speedSeries, speedsAux_length, hgrade]
  simp only [makeRoutePreview]
  refine ⟨hmiles, hspeed, hgrade, helev, ?_⟩
  rw [milesSeries]
  rw [List.pairwise_iff_getElem]
  intro i j hi hj hij
  simp only [List.getElem_map, List.getElem_range]
  have hcast : (i : ℝ) ≤ (j : ℝ) := by
    exact_mod_cast Nat.le_of_lt (by simpa using hij)
  have hden : (0 : ℝ) ≤ (pts : ℝ) - 1 := by norm_num [pts]
  apply div_le_div_of_nonneg_right ?_ hden
  exact mul_le_mul_of_nonneg_right hcast htm

/-- Witness for C10 at the default call `makeRoutePreview(86, 13)`. -/
theorem c10_witness :
    (makeRoutePreview 86 13).miles.length = pts ∧
    (makeRoutePreview 86 13).speed.length = pts ∧
    (makeRoutePreview 86 13).grade.length = pts ∧
    (elevSeries 13).length = pts ∧
    List.Pairwise (· ≤ ·) (makeRoutePreview 86 13).miles :=
  c10_parallel_series 86 13 (by norm_num)

/-- Counterexample to claim C3: strict grade monotonicity fails.  For the
demo configuration the grades 22.5 % and 29 % (with 22.5 < 29) both drive
the solver to its 1 m/s floor, so the solved speeds are equal, not
strictly ordered. -/
theorem c3_counterexample :
    (22.5 : ℝ) < 29 ∧
      ¬ solveSpeed demoConfig 29 < solveSpeed demoConfig 22.5 := by
  refine ⟨by norm_num, ?_⟩
  have e1 : solveV demoConfig 22.5 = 1 :=
    solveV_steep 22.5 (le_refl _) (by norm_num)
  have e2 : solveV demoConfig 29 = 1 :=
    solveV_steep 29 (by norm_num) (by norm_num)
  rw [solveSpeed, solveSpeed, e1, e2]
  exact lt_irrefl _

/-- Claim C3 as amended: the strict ordering fails exactly where the 1 m/s
floor clamp binds; for the demo configuration every grade in [22.5, 30] is
clamped to the floor and the solver returns the identical speed
2.23694 mph, so the response to grade is only weakly monotone there. -/
theorem c3_floor_clamp (gp : ℝ) (h1 : 22.5 ≤ gp) (h2 : gp ≤ 30) :
    solveSpeed demoConfig gp = 2.23694 := by
  rw [solveSpeed, solveV_steep gp h1 h2]
  norm_num

/-- Witness for the amended C3 at grade 25 %. -/
theorem c3_witness : solveSpeed demoConfig 25 = 2.23694 :=
  c3_floor_clamp 25 (by norm_num) (by norm_num)

/-- Counterexample to claim C6: the code's Newton denominator
`grav + roll + 1.5 * aero` is not the true derivative of
`f(v) = v * (grav + roll + aero(v)) - P`; at the demo configuration,
grade 0 and `v = 2` the true derivative is `grav + roll + 3 * aero(2)`,
which differs by `1.5 * aero(2) = 1.1025`. -/
theorem c6_counterexample :
    deriv (fun v => fRes demoConfig 0 v) 2 ≠ dfCode demoConfig 0 2 := by
  have hfun : (fun v => fRes demoConfig 0 v) =
      (fun v : ℝ => v * (grav demoConfig 0 + roll demoConfig 0 +
        0.5 * 1.225 * demoConfig.cda * v * v) - powerOf demoConfig) := by
    funext v
    rw [fRes, aero]
  have hid : HasDerivAt (fun v : ℝ => v) 1 2 := hasDerivAt_id 2
  have hC : HasDerivAt (fun v : ℝ => 0.5 * 1.225 * demoConfig.cda * v)
      (0.5 * 1.225 * demoConfig.cda) 2 := by
    simpa using hid.const_mul (0.5 * 1.225 * demoConfig.cda)
  have hCv : HasDerivAt (fun v : ℝ => 0.5 * 1.225 * demoConfig.cda * v * v)
      (0.5 * 1.225 * demoConfig.cda * 2 +
        0.5 * 1.225 * demoConfig.cda * 2 * 1) 2 := hC.mul hid
  have hin : HasDerivAt (fun v : ℝ => grav demoConfig 0 + roll demoConfig 0 +
      0.5 * 1.225 * demoConfig.cda * v * v)
      (0.5 * 1.225 * demoConfig.cda * 2 +
        0.5 * 1.225 * demoConfig.cda * 2 * 1) 2 :=
    hCv.const_add (grav demoConfig 0 + roll demoConfig 0)
  have hf : HasDerivAt (fun v : ℝ => v * (grav demoConfig 0 + roll demoConfig 0 +
      0.5 * 1.225 * demoConfig.cda * v * v) - powerOf demoConfig)
      (1 * (grav demoConfig 0 + roll demoConfig 0 +
        0.5 * 1.225 * demoConfig.cda * 2 * 2) +
       2 * (0.5 * 1.225 * demoConfig.cda * 2 +
        0.5 * 1.225 * demoConfig.cda * 2 * 1)) 2 :=
    (hid.mul hin).sub_const (powerOf demoConfig)
  rw [hfun, hf.deriv, dfCode, aero]
  have hcda : demoConfig.cda = 0.3 := rfl
  rw [hcda]
  intro heq
  linarith

/-- Claim C6 as amended: the solver runs exactly 6 damped iterations
`v ← max 1 (v - 0.6 f(v) / max 1e-6 d(v))` from the heuristic seed, where
the denominator is `d(v) = grav + roll + 1.5 aero(v)` (a deliberately
damped slope, not the true derivative `grav + roll + 3 aero(v)`), and the
clamp floor is 1 m/s (≈ 2.24 mph, which is at least the claimed 1 mph). -/
theorem c6_newton_scheme (cfg : RiderConfig) (gp : ℝ) :
    solveV cfg gp =
      (fun v => max 1 (v - 0.6 * (fRes cfg gp v /
        max 1e-6 (dfCode cfg gp v))))^[6] (seedV cfg gp) := by
  have h : ∀ n v, newtonIter cfg gp n v =
      (fun v => max 1 (v - 0.6 * (fRes cfg gp v /
        max 1e-6 (dfCode cfg gp v))))^[n] v := by
    intro n
    induction n with
    | zero => intro v; rfl
    | succ n ih =>
        intro v
        rw [newtonIter, ih, Function.iterate_succ_apply, newtonStep]
  exact h 6 (seedV cfg gp)

/-- Counterexample to claim C7: the code's smoothing is not the plain
truncated-window moving average of the raw grades.  On the profile
`miles = [0..5]`, `elev = [0, 52.8, 52.8, ...]` (raw grades
`[0, 1, 0, 0, 0, 0]`) the code leaves the boundary sample 0 untouched
(value 0) while the spec's truncated window yields `(0 + 1 + 0)/3 = 1/3`;
interior samples also differ because the loop reads already-smoothed
values at `i-2`, `i-1`. -/
theorem c7_counterexample :
    computeGrades [0, 1, 2, 3, 4, 5] [0, 52.8, 52.8, 52.8, 52.8, 52.8] ≠
      specSmooth (rawGrades [0, 1, 2, 3, 4, 5]
        [0, 52.8, 52.8, 52.8, 52.8, 52.8]) := by
  have hraw : rawGrades [0, 1, 2, 3, 4, 5] [0, 52.8, 52.8, 52.8, 52.8, 52.8] =
      [0, 1, 0, 0, 0, 0] := by
    simp only [rawGrades, List.length_cons, List.length_nil]
    norm_num [List.range_succ]
    norm_num [rawGradeAt]
  intro h
  have h0 := congrArg (fun l => l.getD 0 0) h
  simp only at h0
  rw [computeGrades, hraw] at h0
  rw [smoothGrades_getD_boundary _ 0 (Or.inl (by norm_num))] at h0
  norm_num [specSmooth, List.range_succ] at h0

/-- Claim C7 as amended: the smoothing pass runs in place over indices
`2 .. n-3` in ascending order — each interior sample becomes the average
of the two already-smoothed samples to its left, itself, and the two raw
samples to its right — while the two samples at either boundary are left
at their raw values (no truncated-window average). -/
theorem c7_inplace_smoothing (g : List ℝ) (j : ℕ) :
    (j < 2 ∨ 2 + (g.length - 4) ≤ j →
      (smoothGrades g).getD j 0 = g.getD j 0) ∧
    (2 ≤ j → j < 2 + (g.length - 4) →
      (smoothGrades g).getD j 0 =
        ((smoothGrades g).getD (j - 2) 0 + (smoothGrades g).getD (j - 1) 0 +
          g.getD j 0 + g.getD (j + 1) 0 + g.getD (j + 2) 0) / 5) :=
  ⟨smoothGrades_getD_boundary g j, smoothGrades_getD_mid g j⟩

/-- Witness for the amended C7 on the raw grades `[0, 1, 0, 0, 0, 0]` at
the interior index 3. -/
theorem c7_witness :
    (smoothGrades [0, 1, 0, 0, 0, 0]).getD 3 0 =
      ((smoothGrades [0, 1, 0, 0, 0, 0]).getD (3 - 2) 0 +
        (smoothGrades [0, 1, 0, 0, 0, 0]).getD (3 - 1) 0 +
        ([0, 1, 0, 0, 0, 0] : List ℝ).getD 3 0 +
        ([0, 1, 0, 0, 0, 0] : List ℝ).getD (3 + 1) 0 +
        ([0, 1, 0, 0, 0, 0] : List ℝ).getD (3 + 2) 0) / 5 :=
  (c7_inplace_smoothing [0, 1, 0, 0, 0, 0] 3).2 (by norm_num) (by norm_num)

end Planalityk
